import Mathlib

/-
  Verification of the metaspace commit-mask specification against
  src/hotspot/share/memory/metaspace/commitMask.cpp.

  The commit mask is a bit vector over address-range granules: bit i stands
  for the granule [base + i*granule_size, base + (i+1)*granule_size).  The
  file below embeds the visible code of commitMask.cpp: the constructor with
  its sanity assert, the debug-only verify walk with its touch test and its
  (compile-time disabled) uncommitted-region probe, and print_on.  Members
  declared only in commitMask.hpp (which is not among the visible sources)
  are modelled from the specification and marked as such.
-/

namespace metaspace

/-- Number of bytes per MetaWord on an LP64 platform. `BytesPerWord` comes from
globalDefinitions.hpp, outside the visible sources; the value 8 matches the
64-bit configuration of the spec's examples. -/
def BytesPerWord : Nat := 8

/-- Modelled from the spec: HotSpot's `is_aligned(x, a)` (utilities/align.hpp
is not among the visible sources); the spec phrases alignment as being an
exact multiple. -/
def is_aligned (x a : Nat) : Bool := x % a == 0

/-- Modelled from the spec: `CommitMask::mask_size` is declared in
commitMask.hpp, which is not among the visible sources; the spec states the
mask length equals `region_size_in_words / granule_size_in_words`. -/
def mask_size (word_size words_per_bit : Nat) : Nat := word_size / words_per_bit

/-- The commit mask: the underlying bit vector (`bitAt` is the CHeapBitMap
accessor `at(i)`, meaningful for indices below `size`), the base address of
the region in bytes (`_base`), the region size in words (`_word_size`) and
the granule size in words (`_words_per_bit`). -/
structure CommitMask where
  size : Nat
  bitAt : Nat → Bool
  base : Nat
  word_size : Nat
  words_per_bit : Nat

/-- The constructor `CommitMask::CommitMask(start, word_size)` (commitMask.cpp
lines 39-47).  The bitmap is sized by `mask_size(word_size,
Settings::commit_granule_words())`; the granule size, a process-wide constant
read from `Settings`, appears here as the `words_per_bit` argument.  The body
asserts `_word_size > 0 && _words_per_bit > 0 && is_aligned(_word_size,
_words_per_bit)`; a failed assert is a fatal abort, modelled as `none`.  The
CHeapBitMap base-class constructor is not among the visible sources; modelled
from the spec: a fresh mask has every bit false. -/
def CommitMask.construct (start word_size words_per_bit : Nat) : Option CommitMask :=
  let m : CommitMask :=
    { size := mask_size word_size words_per_bit
      bitAt := fun _ => false
      base := start
      word_size := word_size
      words_per_bit := words_per_bit }
  if 0 < word_size ∧ 0 < words_per_bit ∧ is_aligned word_size words_per_bit = true then
    some m
  else
    none

/-- Modelled from the spec: the range mutator "Mark range committed
(start_index, end_index)" is declared in commitMask.hpp, not among the visible
sources; the spec says it sets a half-open contiguous run of bits. -/
def CommitMask.mark_committed (m : CommitMask) (a b : Nat) : CommitMask :=
  { m with bitAt := fun i => if a ≤ i ∧ i < b then true else m.bitAt i }

/-- Modelled from the spec: "Mark range uncommitted(start_index, end_index)"
clears a half-open contiguous run of bits. -/
def CommitMask.mark_uncommitted (m : CommitMask) (a b : Nat) : CommitMask :=
  { m with bitAt := fun i => if a ≤ i ∧ i < b then false else m.bitAt i }

/-- Modelled from the spec: the query contract `is_committed(index) → bool`,
declared in commitMask.hpp, returns the bit at the index. -/
def CommitMask.is_committed (m : CommitMask) (i : Nat) : Bool := m.bitAt i

/-- Modelled from the spec: `p2i`/`PTR_FORMAT` rendering of the base address;
the format macros live outside the visible sources, and the spec's example
renders base 4096 as `0x1000`. -/
def printPtr (n : Nat) : String := "0x" ++ String.mk (Nat.toDigits 16 n)

/-- The fixed label printed by `CommitMask::print_on` before the bit
characters (commitMask.cpp line 96). -/
def renderLabel (m : CommitMask) : String := "commit mask, base " ++ printPtr m.base ++ ":"

/-- One character per bit in index order, `X` for a set bit and `-` for a
clear one (the loop of `CommitMask::print_on`, commitMask.cpp lines 98-100). -/
def renderBits (m : CommitMask) : List Char :=
  (List.range m.size).map (fun i => if m.bitAt i then 'X' else '-')

/-- The line content emitted by `CommitMask::print_on` before `st->cr()`:
the label followed by the bit characters. -/
def CommitMask.renderLine (m : CommitMask) : String :=
  renderLabel m ++ String.mk (renderBits m)

/-- `CommitMask::print_on` (commitMask.cpp lines 94-104): the label, one
character per bit, then `st->cr()`, modelled as a newline. -/
def CommitMask.print_on (m : CommitMask) : String := m.renderLine ++ "\n"

/-- The spec's name for `print_on` is `render`. -/
def CommitMask.render (m : CommitMask) : String := m.print_on

/-- The compile-time constant gating the uncommitted-region probe
(commitMask.cpp line 51). -/
def TEST_UNCOMMITTED_REGION : Bool := false

/-- The condition of `assert(CanUseSafeFetch32, ...)` at commitMask.cpp line
65 as written: the function is named without being called, so the condition
is the function's address, which is never null, whatever the value of the
capability. -/
def safeFetchAssertCond (_cap : Bool) : Bool := true

/-- The address `p = _base + (i * _words_per_bit)` in MetaWord-pointer
arithmetic (commitMask.cpp line 69), as a byte address: the first address of
granule `i`. -/
def CommitMask.granuleAddr (m : CommitMask) (i : Nat) : Nat :=
  m.base + i * m.words_per_bit * BytesPerWord

/-- State threaded through `CommitMask::verify`: the mask itself (the method
receiver), the volatile global `x` (commitMask.cpp line 53), and traces of
the loop iterations, the touch-test byte reads and the
`os::is_readable_pointer` probes. -/
structure VerifyState where
  mask : CommitMask
  x : Nat
  visited : List Nat
  reads : List Nat
  probes : List Nat

/-- One iteration of the verify loop (commitMask.cpp lines 68-87): for a set
bit the touch test reads one byte at the granule start and xors it into the
volatile `x` (a u1, hence mod 256); for a clear bit, when `slow`,
`CanUseSafeFetch32()` and `TEST_UNCOMMITTED_REGION` all hold, the granule is
probed with `os::is_readable_pointer` and the run aborts if it is readable. -/
def verifyStep (slow cap : Bool) (mem : Nat → Nat) (rd : Nat → Bool)
    (s : VerifyState) (i : Nat) : Except String VerifyState :=
  let p := s.mask.granuleAddr i
  if s.mask.bitAt i then
    Except.ok { s with
      x := (s.x ^^^ mem p) % 256
      visited := s.visited ++ [i]
      reads := s.reads ++ [p] }
  else
    if slow && (cap && TEST_UNCOMMITTED_REGION) then
      if rd p then
        Except.error "should not be accessible."
      else
        Except.ok { s with
          visited := s.visited ++ [i]
          probes := s.probes ++ [p] }
    else
      Except.ok { s with visited := s.visited ++ [i] }

/-- The verify loop over the bit indices. -/
def verifyLoop (slow cap : Bool) (mem : Nat → Nat) (rd : Nat → Bool) :
    VerifyState → List Nat → Except String VerifyState
  | s, [] => Except.ok s
  | s, i :: rest =>
    match verifyStep slow cap mem rd s i with
    | Except.ok s1 => verifyLoop slow cap mem rd s1 rest
    | Except.error e => Except.error e

/-- `CommitMask::verify(slow, do_touch_test)` (commitMask.cpp lines 55-90,
debug builds only).  `cap` is the platform SafeFetch capability
`CanUseSafeFetch32()`, `mem` reads the byte at a byte address, `rd` is
`os::is_readable_pointer`, `x0` the entry value of the volatile global `x`.
The two `assert_is_aligned` entry asserts and a failing in-loop assert are
fatal aborts, modelled as errors. -/
def CommitMask.verify (m : CommitMask) (slow do_touch_test cap : Bool)
    (mem : Nat → Nat) (rd : Nat → Bool) (x0 : Nat) : Except String VerifyState :=
  if is_aligned m.base (m.words_per_bit * BytesPerWord) = false then
    Except.error "base alignment"
  else if is_aligned m.word_size m.words_per_bit = false then
    Except.error "word size alignment"
  else if slow && !(safeFetchAssertCond cap) then
    Except.error "We need SafeFetch for this test."
  else
    if do_touch_test then
      verifyLoop slow cap mem rd ⟨m, x0, [], [], []⟩ (List.range m.size)
    else
      Except.ok ⟨m, x0, [], [], []⟩

/-- True when a verify run did not abort. -/
def isOk (r : Except String VerifyState) : Bool :=
  match r with
  | Except.ok _ => true
  | Except.error _ => false

/-- The indices visited by a successful verify run (empty for an aborted run). -/
def visitedOf (r : Except String VerifyState) : List Nat :=
  match r with
  | Except.ok s => s.visited
  | Except.error _ => []

/-- The probe trace of a successful verify run (empty for an aborted run). -/
def probesOf (r : Except String VerifyState) : List Nat :=
  match r with
  | Except.ok s => s.probes
  | Except.error _ => []

/-- A placeholder mask, used only as an `Option.getD` default below. -/
def emptyMask : CommitMask := ⟨0, fun _ => false, 0, 0, 0⟩

/-- The spec's end-to-end example instance: base 0x1000, 64 words, 8-word
granules, then `mark_committed([2,5))`. -/
def mC3 : CommitMask :=
  ((CommitMask.construct 4096 64 8).getD emptyMask).mark_committed 2 5

/-- A small all-clear mask: base 0, 16 words, 8-word granules (two granules). -/
def mC4 : CommitMask := (CommitMask.construct 0 16 8).getD emptyMask

/-- Because `TEST_UNCOMMITTED_REGION` is false, a verify loop never aborts and
never probes: it visits the given indices in order, reads one byte per set
bit, folds the read bytes into `x`, and leaves the mask untouched. -/
theorem verifyLoop_spec (slow cap : Bool) (mem : Nat → Nat) (rd : Nat → Bool)
    (idxs : List Nat) (s : VerifyState) :
    verifyLoop slow cap mem rd s idxs = Except.ok
      { mask := s.mask
        x := ((idxs.filter s.mask.bitAt).map (fun i => mem (s.mask.granuleAddr i))).foldl
               (fun a v => (a ^^^ v) % 256) s.x
        visited := s.visited ++ idxs
        reads := s.reads ++ (idxs.filter s.mask.bitAt).map s.mask.granuleAddr
        probes := s.probes } := by
  induction idxs generalizing s with
  | nil =>
    simp [verifyLoop]
  | cons i rest ih =>
    by_cases h : s.mask.bitAt i = true
    · have hstep : verifyStep slow cap mem rd s i = Except.ok { s with
          x := (s.x ^^^ mem (s.mask.granuleAddr i)) % 256
          visited := s.visited ++ [i]
          reads := s.reads ++ [s.mask.granuleAddr i] } := by
        simp [verifyStep, h]
      simp only [verifyLoop, hstep]
      rw [ih]
      simp [List.filter_cons, h, List.append_assoc]
    · have hb : s.mask.bitAt i = false := by
        cases hx : s.mask.bitAt i
        · rfl
        · exact absurd hx h
      have hstep : verifyStep slow cap mem rd s i = Except.ok { s with
          visited := s.visited ++ [i] } := by
        simp [verifyStep, hb, TEST_UNCOMMITTED_REGION]
      simp only [verifyLoop, hstep]
      rw [ih]
      simp [List.filter_cons, hb, List.append_assoc]

/-- When the entry asserts hold, verify with the touch test runs the loop over
every index and succeeds with the state described by `verifyLoop_spec`. -/
theorem verify_touch (m : CommitMask) (slow cap : Bool) (mem : Nat → Nat)
    (rd : Nat → Bool) (x0 : Nat)
    (hb : is_aligned m.base (m.words_per_bit * BytesPerWord) = true)
    (hw : is_aligned m.word_size m.words_per_bit = true) :
    m.verify slow true cap mem rd x0 = Except.ok
      { mask := m
        x := (((List.range m.size).filter m.bitAt).map
                (fun i => mem (m.granuleAddr i))).foldl (fun a v => (a ^^^ v) % 256) x0
        visited := List.range m.size
        reads := ((List.range m.size).filter m.bitAt).map m.granuleAddr
        probes := [] } := by
  have h := verifyLoop_spec slow cap mem rd (List.range m.size) ⟨m, x0, [], [], []⟩
  simp only [CommitMask.verify, hb, hw, safeFetchAssertCond, Bool.not_true, Bool.and_false]
  simp at h ⊢
  exact h

/-- When the entry asserts hold, verify without the touch test succeeds
immediately, visiting nothing. -/
theorem verify_no_touch (m : CommitMask) (slow cap : Bool) (mem : Nat → Nat)
    (rd : Nat → Bool) (x0 : Nat)
    (hb : is_aligned m.base (m.words_per_bit * BytesPerWord) = true)
    (hw : is_aligned m.word_size m.words_per_bit = true) :
    m.verify slow false cap mem rd x0 = Except.ok ⟨m, x0, [], [], []⟩ := by
  simp [CommitMask.verify, hb, hw, safeFetchAssertCond]

/-- Every successful verify run returns the very mask it started from and an
empty probe trace, whatever the flags. -/
theorem verify_ok_inv (m : CommitMask) (slow dtt cap : Bool) (mem : Nat → Nat)
    (rd : Nat → Bool) (x0 : Nat) (s : VerifyState)
    (h : m.verify slow dtt cap mem rd x0 = Except.ok s) :
    s.mask = m ∧ s.probes = [] := by
  unfold CommitMask.verify at h
  split at h
  · exact Except.noConfusion h
  · split at h
    · exact Except.noConfusion h
    · split at h
      · exact Except.noConfusion h
      · split at h
        · rw [verifyLoop_spec] at h
          injection h with h1
          rw [← h1]
          exact ⟨rfl, rfl⟩
        · injection h with h1
          rw [← h1]
          exact ⟨rfl, rfl⟩

/-- C1: for every region size R and granule size G (in words) with R > 0,
G > 0 and R % G = 0, construction succeeds and yields a mask whose bit-vector
length is exactly R / G and in which every bit is false. -/
theorem spec_c1_fresh_mask (b R G : Nat) (hR : 0 < R) (hG : 0 < G)
    (hdvd : R % G = 0) :
    ∃ m, CommitMask.construct b R G = some m ∧ m.size = R / G ∧
      ∀ i, i < m.size → m.is_committed i = false := by
  have hc : 0 < R ∧ 0 < G ∧ is_aligned R G = true :=
    ⟨hR, hG, by simp [is_aligned, hdvd]⟩
  unfold CommitMask.construct
  rw [if_pos hc]
  exact ⟨_, rfl, rfl, fun i _ => rfl⟩

theorem spec_c1_fresh_mask_witness :
    0 < 64 ∧ 0 < 8 ∧ 64 % 8 = 0 ∧
      (∃ m, CommitMask.construct 4096 64 8 = some m ∧ m.size = 64 / 8 ∧
        ∀ i, i < m.size → m.is_committed i = false) :=
  ⟨by decide, by decide, by decide,
    spec_c1_fresh_mask 4096 64 8 (by decide) (by decide) (by decide)⟩

/-- C2 counterexample: base 4 is not aligned to the granule size in address
units (8 words times 8 bytes per word = 64 bytes, and 4 % 64 is not 0), yet
construction succeeds: the constructor assert checks only the two sizes and
their divisibility, never the base alignment, so the claim that construction
fails on a misaligned base is false. -/
theorem spec_c2_ctor_counterexample :
    is_aligned 4 (8 * BytesPerWord) = false ∧
      (CommitMask.construct 4 64 8).isSome = true :=
  ⟨by decide, by decide⟩

/-- C2 amended: construction fails fast and fatally exactly when the word
size or the granule size is zero or the word size is not an exact multiple of
the granule size; the base alignment is not checked at construction (it is
only asserted later, in verify).  In particular R = 100, G = 7 fails. -/
theorem spec_c2_ctor_checks :
    (∀ b R G : Nat,
        CommitMask.construct b R G = none ↔ ¬(0 < R ∧ 0 < G ∧ R % G = 0)) ∧
      CommitMask.construct 0 100 7 = none := by
  have key : ∀ b R G : Nat,
      CommitMask.construct b R G = none ↔ ¬(0 < R ∧ 0 < G ∧ R % G = 0) := by
    intro b R G
    have hiff : (0 < R ∧ 0 < G ∧ is_aligned R G = true) ↔
        (0 < R ∧ 0 < G ∧ R % G = 0) := by
      simp [is_aligned]
    unfold CommitMask.construct
    by_cases h : 0 < R ∧ 0 < G ∧ is_aligned R G = true
    · rw [if_pos h]
      simp [hiff.mp h]
    · rw [if_neg h]
      have hn : ¬(0 < R ∧ 0 < G ∧ R % G = 0) := fun hc => h (hiff.mpr hc)
      simp only [eq_self_iff_true, true_iff]
      exact hn
  exact ⟨key, (key 0 100 7).mpr (by decide)⟩

/-- C3: the end-to-end example: base 0x1000 with 64 words of 8-word granules
constructs a mask of length 8; after `mark_committed([2,5))` the queried bits
match the claim, and the rendered line is exactly
`commit mask, base 0x1000:--XXX---`, followed by the line terminator. -/
theorem spec_c3_end_to_end :
    (CommitMask.construct 4096 64 8).isSome = true ∧
      mC3.size = 8 ∧
      mC3.is_committed 1 = false ∧
      mC3.is_committed 2 = true ∧
      mC3.is_committed 4 = true ∧
      mC3.is_committed 5 = false ∧
      mC3.renderLine = "commit mask, base 0x1000:--XXX---" ∧
      mC3.render = "commit mask, base 0x1000:--XXX---" ++ "\n" :=
  ⟨by decide, rfl, rfl, rfl, rfl, rfl, by decide, by decide⟩

/-- C4 counterexample: bit 0 of the mask is false, slow is requested, the
touch test is on, the platform capability is present and every address reads
as accessible, yet verify performs no probe at all and does not abort: the
not-accessible check is additionally gated behind the compile-time constant
`TEST_UNCOMMITTED_REGION`, which is false, so the claimed check never runs. -/
theorem spec_c4_probe_counterexample :
    mC4.is_committed 0 = false ∧
      isOk (mC4.verify true true true (fun _ => 0) (fun _ => true) 0) = true ∧
      probesOf (mC4.verify true true true (fun _ => 0) (fun _ => true) 0) = [] :=
  ⟨rfl, rfl, rfl⟩

/-- C4 amended: for every mask and all flags, a successful verify run performs
no accessibility probe: the check for clear bits is gated behind
do_touch_test, slow, the platform capability and `TEST_UNCOMMITTED_REGION`
together, and the last of these is the constant false. -/
theorem spec_c4_probe_never (m : CommitMask) (slow dtt cap : Bool)
    (mem : Nat → Nat) (rd : Nat → Bool) (x0 : Nat) (s : VerifyState)
    (h : m.verify slow dtt cap mem rd x0 = Except.ok s) : s.probes = [] :=
  (verify_ok_inv m slow dtt cap mem rd x0 s h).2

/-- The state returned by verify on the two-granule all-clear mask with every
flag set and every address readable: both bits visited, nothing read, nothing
probed. -/
def sC4 : VerifyState := ⟨mC4, 0, [0, 1], [], []⟩

theorem spec_c4_probe_never_witness : sC4.probes = [] :=
  spec_c4_probe_never mC4 true true true (fun _ => 0) (fun _ => true) 0 sC4 rfl

/-- C5 counterexample: with do_touch_test false, verify succeeds without
visiting a single bit, though the mask has two: the walk over the bits lives
entirely inside the touch-test branch, so the claim that every flag
combination visits every bit is false. -/
theorem spec_c5_visit_counterexample :
    visitedOf (mC4.verify false false true (fun _ => 0) (fun _ => false) 0) = [] ∧
      mC4.size = 2 :=
  ⟨rfl, rfl⟩

/-- C5 amended: when the two entry alignment asserts hold, verify succeeds
and visits every bit exactly once, in index order, when do_touch_test is
true; when do_touch_test is false it visits no bit at all. -/
theorem spec_c5_visits (m : CommitMask) (slow dtt cap : Bool) (mem : Nat → Nat)
    (rd : Nat → Bool) (x0 : Nat)
    (hb : is_aligned m.base (m.words_per_bit * BytesPerWord) = true)
    (hw : is_aligned m.word_size m.words_per_bit = true) :
    ∃ s, m.verify slow dtt cap mem rd x0 = Except.ok s ∧
      s.visited = (if dtt then List.range m.size else []) := by
  cases dtt with
  | false => exact ⟨_, verify_no_touch m slow cap mem rd x0 hb hw, rfl⟩
  | true => exact ⟨_, verify_touch m slow cap mem rd x0 hb hw, rfl⟩

theorem spec_c5_visits_witness :
    is_aligned mC3.base (mC3.words_per_bit * BytesPerWord) = true ∧
      is_aligned mC3.word_size mC3.words_per_bit = true ∧
      (∃ s, mC3.verify true true true (fun _ => 0) (fun _ => false) 0 = Except.ok s ∧
        s.visited = (if true then List.range mC3.size else [])) :=
  ⟨by decide, by decide,
    spec_c5_visits mC3 true true true (fun _ => 0) (fun _ => false) 0
      (by decide) (by decide)⟩

/-- C6: with do_touch_test requested and the entry asserts holding, for every
set bit i the verify walk reads one byte at the granule's first address
`base + i * words_per_bit` (scaled to bytes), and the returned volatile `x`
is the xor-fold of exactly the bytes read, so the read value is sunk through
the observable side channel rather than discarded. -/
theorem spec_c6_touch_reads (m : CommitMask) (slow cap : Bool) (mem : Nat → Nat)
    (rd : Nat → Bool) (x0 i : Nat)
    (hb : is_aligned m.base (m.words_per_bit * BytesPerWord) = true)
    (hw : is_aligned m.word_size m.words_per_bit = true)
    (hi : i < m.size) (hbit : m.bitAt i = true) :
    ∃ s, m.verify slow true cap mem rd x0 = Except.ok s ∧
      m.granuleAddr i ∈ s.reads ∧
      s.x = (s.reads.map mem).foldl (fun a v => (a ^^^ v) % 256) x0 := by
  refine ⟨_, verify_touch m slow cap mem rd x0 hb hw, ?_, ?_⟩
  · have hmem : i ∈ (List.range m.size).filter m.bitAt :=
      List.mem_filter.mpr ⟨List.mem_range.mpr hi, hbit⟩
    exact List.mem_map_of_mem m.granuleAddr hmem
  · simp [List.map_map]
    rfl

theorem spec_c6_touch_reads_witness :
    is_aligned mC3.base (mC3.words_per_bit * BytesPerWord) = true ∧
      is_aligned mC3.word_size mC3.words_per_bit = true ∧
      2 < mC3.size ∧ mC3.bitAt 2 = true ∧
      (∃ s, mC3.verify false true false (fun _ => 7) (fun _ => false) 0 = Except.ok s ∧
        mC3.granuleAddr 2 ∈ s.reads ∧
        s.x = (s.reads.map (fun _ => 7)).foldl (fun a v => (a ^^^ v) % 256) 0) :=
  ⟨by decide, by decide, by decide, rfl,
    spec_c6_touch_reads mC3 false false (fun _ => 7) (fun _ => false) 0 2
      (by decide) (by decide) (by decide) rfl⟩

/-- C7: a successful verify run, under any flag combination, leaves the
mask's bit vector, base and sizes exactly as they were: the state it returns
carries the very mask it started from, and only the volatile `x` and the
diagnostic traces vary. -/
theorem spec_c7_verify_frame (m : CommitMask) (slow dtt cap : Bool)
    (mem : Nat → Nat) (rd : Nat → Bool) (x0 : Nat) (s : VerifyState)
    (h : m.verify slow dtt cap mem rd x0 = Except.ok s) :
    s.mask.bitAt = m.bitAt ∧ s.mask.base = m.base ∧ s.mask.size = m.size ∧
      s.mask.word_size = m.word_size ∧ s.mask.words_per_bit = m.words_per_bit := by
  have hm : s.mask = m := (verify_ok_inv m slow dtt cap mem rd x0 s h).1
  rw [hm]
  exact ⟨rfl, rfl, rfl, rfl, rfl⟩

/-- The state returned by verify on the example mask when memory reads as
zero: x stays 0, the three committed granules are read, nothing is probed. -/
def sC7 : VerifyState := ⟨mC3, 0, [0, 1, 2, 3, 4, 5, 6, 7], [4224, 4288, 4352], []⟩

theorem spec_c7_verify_frame_witness :
    sC7.mask.bitAt = mC3.bitAt ∧ sC7.mask.base = mC3.base ∧
      sC7.mask.size = mC3.size ∧ sC7.mask.word_size = mC3.word_size ∧
      sC7.mask.words_per_bit = mC3.words_per_bit :=
  spec_c7_verify_frame mC3 true true true (fun _ => 0) (fun _ => false) 0 sC7 rfl

/-- C8: for every mask, render emits the base-address label, then exactly
`size` characters, the character at position i being `X` when bit i is true
and `-` when it is false, then a line terminator. -/
theorem spec_c8_render_shape (m : CommitMask) (i : Nat) (hi : i < m.size) :
    m.render = renderLabel m ++ String.mk (renderBits m) ++ "\n" ∧
      (renderBits m).length = m.size ∧
      (renderBits m).getD i 'Z' = (if m.is_committed i then 'X' else '-') := by
  refine ⟨rfl, by simp [renderBits], ?_⟩
  have hlen : i < (renderBits m).length := by
    simpa [renderBits] using hi
  rw [List.getD_eq_getElem (renderBits m) 'Z' hlen]
  simp [renderBits, CommitMask.is_committed]

theorem spec_c8_render_shape_witness :
    2 < mC3.size ∧
      (mC3.render = renderLabel mC3 ++ String.mk (renderBits mC3) ++ "\n" ∧
        (renderBits mC3).length = mC3.size ∧
        (renderBits mC3).getD 2 'Z' = (if mC3.is_committed 2 then 'X' else '-')) :=
  ⟨by decide, spec_c8_render_shape mC3 2 (by decide)⟩

/-- C9: committing a half-open index range and then uncommitting the same
range leaves every bit of the range false — the freshly-constructed state for
that range — whatever the starting mask held elsewhere. -/
theorem spec_c9_mark_roundtrip (m : CommitMask) (a b i : Nat)
    (h1 : a ≤ i) (h2 : i < b) :
    ((m.mark_committed a b).mark_uncommitted a b).is_committed i = false := by
  simp [CommitMask.mark_committed, CommitMask.mark_uncommitted,
    CommitMask.is_committed, h1, h2]

theorem spec_c9_mark_roundtrip_witness :
    2 ≤ 3 ∧ 3 < 5 ∧
      ((mC4.mark_committed 2 5).mark_uncommitted 2 5).is_committed 3 = false :=
  ⟨by decide, by decide, spec_c9_mark_roundtrip mC4 2 5 3 (by decide) (by decide)⟩

/-- C10: the code as written does not enforce the claimed requirement: the
assert at commitMask.cpp line 65 names `CanUseSafeFetch32` without calling
it, so its condition is the function's address, which is constantly true, and
verify with slow requested succeeds even when the SafeFetch capability is
absent — although the assert's own message says the capability is needed and
line 81 calls the very same function with parentheses. -/
theorem spec_c10_safefetch_assert :
    safeFetchAssertCond false = true ∧
      isOk (mC4.verify true false false (fun _ => 0) (fun _ => false) 0) = true :=
  ⟨rfl, rfl⟩

end metaspace
